import Mathlib

/-!
Shallow embedding of the Zoom-AI-Agent scheduling pipeline.

Source files embedded:
  * `AgentAI/app.py` — Flask endpoint `schedule_meeting`, token helpers
    (`load_token`, `token_expired`, `refresh_access_token`).
  * `AgentAI/root_agent/ZoomAPI.py` — agent-facing tool `schedule_meeting`.
  * `AgentAI/root_agent/agent.py` — `convert_to_iso`.

Modelling conventions:
  * Wall-clock instants (`time.time()`) are integers (seconds since epoch);
    the float-valued clock of Python is abstracted to `Int`.
  * Strings are manipulated as `List Char`; `String` wrappers are used at
    the interfaces.
  * `datetime.fromisoformat` is embedded for the fully written
    `YYYY-MM-DDTHH:MM:SS` grammar with an optional `±HH:MM` offset (the
    only forms the pipeline produces and the claims exercise); Python
    accepts further abbreviations which are outside this model.
  * The IANA timezone database (pytz / dateutil) is external data; a
    fragment sufficient for the claims is modelled, and claims about
    unrecognised zones quantify over membership in that fragment.
  * `dateutil.parser.parse` (natural-language parsing, external library)
    is modelled as an oracle argument `Option DT` supplied to
    `convert_to_iso`.
-/

/-- Calendar date plus wall-clock time of day (naive, no zone). -/
structure DT where
  year : Nat
  month : Nat
  day : Nat
  hour : Nat
  minute : Nat
  second : Nat
deriving DecidableEq, Repr

/-- Gregorian leap year, as used by Python's `datetime`. -/
def isLeap (y : Nat) : Bool :=
  (y % 4 == 0 && y % 100 != 0) || (y % 400 == 0)

def daysInMonth (y m : Nat) : Nat :=
  if m = 2 then (if isLeap y then 29 else 28)
  else if m = 4 ∨ m = 6 ∨ m = 9 ∨ m = 11 then 30
  else 31

/-- The field ranges Python's `datetime` constructor enforces
(`MINYEAR = 1`, `MAXYEAR = 9999`). -/
def validDT (d : DT) : Bool :=
  1 ≤ d.year && d.year ≤ 9999 &&
  1 ≤ d.month && d.month ≤ 12 &&
  1 ≤ d.day && d.day ≤ daysInMonth d.year d.month &&
  d.hour < 24 && d.minute < 60 && d.second < 60

/-- The calendar day before `d` (time of day kept). -/
def prevDay (d : DT) : DT :=
  if 1 < d.day then { d with day := d.day - 1 }
  else if 1 < d.month then
    { d with month := d.month - 1, day := daysInMonth d.year (d.month - 1) }
  else
    { d with year := d.year - 1, month := 12, day := 31 }

/-- The calendar day after `d` (time of day kept). -/
def nextDay (d : DT) : DT :=
  if d.day < daysInMonth d.year d.month then { d with day := d.day + 1 }
  else if d.month < 12 then { d with month := d.month + 1, day := 1 }
  else { d with year := d.year + 1, month := 1, day := 1 }

/-- Shift the wall clock by `delta` minutes, |delta| < one day
(offsets parsed from `±HH:MM` are at most 23 h 59 min). -/
def rawShift (d : DT) (delta : Int) : DT :=
  let tot : Int := (d.hour * 60 + d.minute : Nat) + delta
  if tot < 0 then
    let t := (tot + 1440).toNat
    let p := prevDay d
    { p with hour := t / 60, minute := t % 60 }
  else if tot < 1440 then
    let t := tot.toNat
    { d with hour := t / 60, minute := t % 60 }
  else
    let t := (tot - 1440).toNat
    let n := nextDay d
    { n with hour := t / 60, minute := t % 60 }

/-- Minute shift of an in-range datetime; `none` models the
`OverflowError` Python raises when the result leaves year 1..9999
(and guards the one-day bound of `rawShift`, which every caller obeys). -/
def shiftMinutes (d : DT) (delta : Int) : Option DT :=
  if delta < -1439 ∨ 1439 < delta then none
  else
    let r := rawShift d delta
    if validDT r then some r else none

/-! ### Digit rendering and parsing (for `isoformat` / `fromisoformat`) -/

def digitToNat (c : Char) : Option Nat :=
  if '0' ≤ c ∧ c ≤ '9' then some (c.toNat - 48) else none

def natDigit (n : Nat) : Char := Char.ofNat (48 + n)

def pad2 (n : Nat) : List Char := [natDigit (n / 10), natDigit (n % 10)]

def pad4 (n : Nat) : List Char :=
  [natDigit (n / 1000), natDigit (n / 100 % 10), natDigit (n / 10 % 10),
   natDigit (n % 10)]

def parse2 (a b : Char) : Option Nat := do
  let x ← digitToNat a
  let y ← digitToNat b
  pure (x * 10 + y)

def parse4 (a b c e : Char) : Option Nat := do
  let x ← digitToNat a
  let y ← digitToNat b
  let z ← digitToNat c
  let w ← digitToNat e
  pure (((x * 10 + y) * 10 + z) * 10 + w)

theorem digitToNat_natDigit : ∀ n < 10, digitToNat (natDigit n) = some n := by
  decide

theorem parse2_pad2 (n : Nat) (h : n < 100) :
    parse2 (natDigit (n / 10)) (natDigit (n % 10)) = some n := by
  have h1 : n / 10 < 10 := by omega
  have h2 : n % 10 < 10 := by omega
  simp only [parse2, digitToNat_natDigit _ h1, digitToNat_natDigit _ h2,
    Option.bind_eq_bind, Option.some_bind, Option.some.injEq, pure]
  omega

theorem parse4_pad4 (n : Nat) (h : n < 10000) :
    parse4 (natDigit (n / 1000)) (natDigit (n / 100 % 10))
      (natDigit (n / 10 % 10)) (natDigit (n % 10)) = some n := by
  have h1 : n / 1000 < 10 := by omega
  have h2 : n / 100 % 10 < 10 := by omega
  have h3 : n / 10 % 10 < 10 := by omega
  have h4 : n % 10 < 10 := by omega
  simp only [parse4, digitToNat_natDigit _ h1, digitToNat_natDigit _ h2,
    digitToNat_natDigit _ h3, digitToNat_natDigit _ h4,
    Option.bind_eq_bind, Option.some_bind, Option.some.injEq, pure]
  omega

/-! ### `datetime.fromisoformat` / `isoformat` (restricted grammar) -/

/-- Parse the trailing UTC-offset part of an ISO string: empty (naive
datetime) or `±HH:MM` (aware, offset in minutes east of UTC). -/
def parseOffsetTail : List Char → Option (Option Int)
  | [] => some none
  | [s, h1, h2, ':', m1, m2] => do
    let sgn : Int ← if s = '+' then some 1 else if s = '-' then some (-1) else none
    let h ← parse2 h1 h2
    let m ← parse2 m1 m2
    if h < 24 ∧ m < 60 then some (some (sgn * ((h : Int) * 60 + m))) else none
  | _ => none

/-- `datetime.fromisoformat` on the full `YYYY-MM-DDTHH:MM:SS[±HH:MM]`
grammar (the only forms this pipeline produces); yields the naive fields
and the optional `tzinfo` offset in minutes. -/
def fromisoChars : List Char → Option (DT × Option Int)
  | y1 :: y2 :: y3 :: y4 :: '-' :: o1 :: o2 :: '-' :: d1 :: d2 :: 'T' ::
      h1 :: h2 :: ':' :: mi1 :: mi2 :: ':' :: s1 :: s2 :: rest => do
    let y ← parse4 y1 y2 y3 y4
    let mo ← parse2 o1 o2
    let da ← parse2 d1 d2
    let h ← parse2 h1 h2
    let mi ← parse2 mi1 mi2
    let s ← parse2 s1 s2
    let dt : DT := ⟨y, mo, da, h, mi, s⟩
    if validDT dt then (parseOffsetTail rest).map (fun off => (dt, off))
    else none
  | _ => none

/-- `dt.isoformat(timespec='seconds')` for a naive datetime. -/
def fmtNaive (d : DT) : List Char :=
  pad4 d.year ++ '-' :: (pad2 d.month ++ '-' :: (pad2 d.day ++ 'T' ::
    (pad2 d.hour ++ ':' :: (pad2 d.minute ++ ':' :: pad2 d.second))))

/-- `dt.isoformat(timespec='seconds')` for a UTC-aware datetime
(suffix `+00:00`). -/
def fmtUTC (d : DT) : List Char := fmtNaive d ++ "+00:00".data

/-- Does `s` start with `pat`? (Python substring match at position 0.) -/
def lstartsWith : List Char → List Char → Bool
  | _, [] => true
  | [], _ :: _ => false
  | a :: as, b :: bs => a = b && lstartsWith as bs

/-- Fuel-indexed body of `pyReplace`; the fuel (an upper bound on the
string length) only makes the recursion structural and never runs out
at any call site. -/
def pyReplaceF : Nat → List Char → List Char → List Char → List Char
  | 0, s, _, _ => s
  | _ + 1, [], _, _ => []
  | fuel + 1, c :: cs, pat, rep =>
    if lstartsWith (c :: cs) pat ∧ pat ≠ [] then
      rep ++ pyReplaceF fuel ((c :: cs).drop pat.length) pat rep
    else
      c :: pyReplaceF fuel cs pat rep

/-- Python `str.replace(pat, rep)`: replace every (leftmost,
non-overlapping) occurrence of a non-empty `pat`. -/
def pyReplace (s pat rep : List Char) : List Char :=
  pyReplaceF s.length s pat rep

/-- Python `int(s)` on a string: optional sign then decimal digits
(whitespace/underscore forms are outside this model; no claim uses them). -/
def strToInt (s : List Char) : Option Int :=
  let core : List Char → Option Nat := fun ds =>
    if ds = [] then none
    else ds.foldl (fun acc c => do
      let a ← acc
      let d ← digitToNat c
      pure (a * 10 + d)) (some 0)
  match s with
  | '+' :: rest => (core rest).map (fun n => (n : Int))
  | '-' :: rest => (core rest).map (fun n => -(n : Int))
  | _ => (core s).map (fun n => (n : Int))

/-! ### pytz fragment -/

/-- Modelled fragment of the IANA zone database (`pytz.all_timezones`
plus each zone's UTC offset in minutes). Offsets are the ones in force
on the dates the claims exercise; `Asia/Kolkata` has no DST. Claims
about unrecognised zones quantify over membership in this list. -/
def tzTable : List (String × Int) :=
  [("UTC", 0), ("Asia/Kolkata", 330), ("America/New_York", -300),
   ("America/Los_Angeles", -480), ("Europe/London", 0), ("Asia/Tokyo", 540)]

/-- `pytz.all_timezones` (modelled fragment). -/
def all_timezones : List String := tzTable.map Prod.fst

/-- `pytz.timezone(z).utcoffset` in minutes; `none` models
`UnknownTimeZoneError`. -/
def tzOffsetMin (z : String) : Option Int := tzTable.lookup z

/-! ### JSON values and Python coercions -/

/-- A JSON scalar as delivered by `request.get_json()` (floats and
compound values are outside this model; no claim uses them). -/
inductive JVal where
  | jStr (s : String)
  | jInt (n : Int)
  | jBool (b : Bool)
  | jNull
deriving DecidableEq, Repr

/-- Python `int(x)`: identity on ints, decimal parse on strings,
`True`/`False` ↦ 1/0, `TypeError` on `None`. -/
def pyInt : JVal → Option Int
  | .jInt n => some n
  | .jStr s => strToInt s.data
  | .jBool b => some (if b then 1 else 0)
  | .jNull => none

/-- Using a JSON value as a `str` (e.g. calling `.replace` on it);
`none` models the `AttributeError` raised on a non-string. -/
def asStr : JVal → Option String
  | .jStr s => some s
  | _ => none

/-! ### Token record and lifecycle (`app.py` lines 42–74) -/

/-- The persisted `zoom_token.json` dict; each field is `Option` because
the code accesses them with `[]`/`.get` and the provider may omit any. -/
structure TokenRec where
  access_token : Option String := none
  refresh_token : Option String := none
  expires_at : Option Int := none
  expires_in : Option Int := none
deriving DecidableEq, Repr

/-- `load_token` (app.py 42–50): `none` store models a missing
`zoom_token.json` (`FileNotFoundError`); on load, a record without
`expires_at` is silently rewritten to `now + expires_in` (default 3600). -/
def load_token (store : Option TokenRec) (now : Int) : Option TokenRec :=
  store.map (fun t =>
    if t.expires_at.isNone then
      { t with expires_at := some (now + t.expires_in.getD 3600) }
    else t)

/-- `token_expired` (app.py 56–57):
`time.time() > token.get("expires_at", 0) - 120`. -/
def token_expired (t : TokenRec) (now : Int) : Bool :=
  now > t.expires_at.getD 0 - 120

/-- The JSON body of a successful provider token-refresh response. -/
structure RefreshJson where
  access_token : Option String := none
  refresh_token : Option String := none
  expires_in : Option Int := none
deriving DecidableEq, Repr

/-- Outcome of the network exchange with the provider's token endpoint:
a 200 response with a JSON body, or a non-200 whose text is `body`. -/
inductive RefreshOutcome where
  | success (j : RefreshJson)
  | failure (body : String)
deriving DecidableEq, Repr

/-- `refresh_access_token` (app.py 59–74). The `data` dict reads
`token["refresh_token"]` (KeyError if absent, before any network I/O);
a non-200 response raises `RuntimeError`; on success the *response*
JSON becomes the new record — fields absent from the response are
absent from the record — with `expires_at = now + expires_in`
(default 3600). `save_token` persists exactly the returned record. -/
def refresh_access_token (t : TokenRec) (now : Int) (o : RefreshOutcome) :
    Except String TokenRec :=
  match t.refresh_token with
  | none => .error "KeyError: refresh_token"
  | some _ =>
    match o with
    | .failure body => .error ("Token refresh failed: " ++ body)
    | .success j =>
      .ok { access_token := j.access_token,
            refresh_token := j.refresh_token,
            expires_at := some (now + j.expires_in.getD 3600),
            expires_in := j.expires_in }

/-- The token-lifecycle step of the endpoint (app.py 164–166): refresh
exactly when `token_expired`, else pass the loaded record through.
This is the spec's `ensure_valid`. -/
def ensure_valid (t : TokenRec) (now : Int) (o : RefreshOutcome) :
    Except String TokenRec :=
  if token_expired t now then refresh_access_token t now o else .ok t

/-! ### Flask endpoint `/api/schedule/` (app.py 130–223) -/

/-- The provider's meeting object on a 201 response (the nine fields the
endpoint copies into its envelope). -/
structure Meeting where
  id : Int
  topic : String
  join_url : String
  start_url : String
  password : String
  start_time : String
  duration : Int
  timezone : String
  created_at : String
deriving DecidableEq, Repr

/-- The provider's HTTP response to the create-meeting call: status,
optional `Retry-After` header, JSON meeting body (`none` models an
unparseable body), and the raw text used on error paths. -/
structure ProviderResp where
  status : Nat
  retryAfter : Option String := none
  meeting : Option Meeting := none
  errBody : String := ""
deriving DecidableEq, Repr

/-- The JSON payload the endpoint posts to
`https://api.zoom.us/v2/users/me/meetings` (app.py 180–191). -/
structure Payload where
  topic : JVal
  mtype : Nat
  start_time : String
  duration : Int
  timezone : String
  join_before_host : JVal
  mute_upon_entry : JVal
  waiting_room : JVal
deriving DecidableEq, Repr

/-- The endpoint's JSON response, flattened: only the keys a given path
sets are `some`. -/
structure Response where
  status : Nat
  success : Option Bool := none
  error : Option String := none
  setup_url : Option String := none
  retry_after : Option Int := none
  meeting : Option Meeting := none
deriving DecidableEq, Repr

/-- Observable side effects of one endpoint invocation, in order:
credential-store read, token-refresh network call, provider
create-meeting network call (with the payload sent). -/
inductive Eff where
  | load
  | refreshCall
  | providerCall (p : Payload)
deriving DecidableEq, Repr

/-- The request body as parsed JSON: each required key present or not,
plus the three optional setting flags. -/
structure RawData where
  topic : Option JVal := none
  start_time : Option JVal := none
  duration : Option JVal := none
  timezone : Option JVal := none
  join_before_host : Option JVal := none
  mute_upon_entry : Option JVal := none
  waiting_room : Option JVal := none
deriving DecidableEq, Repr

/-- The validated, normalized request that reaches the provider call. -/
structure NormReq where
  topic : JVal
  duration : Int
  timezone : String
  iso_start : String
  join_before_host : JVal
  mute_upon_entry : JVal
  waiting_room : JVal
deriving DecidableEq, Repr

/-- Message of the `ValueError` that `int()` raises on a bad literal
(propagates to the generic `except` and a 500 response). -/
def pyIntErrMsg : String := "invalid literal for int() with base 10"

/-- app.py 152–158: `fromisoformat` after `Z → +00:00` replacement,
`tz.localize` when naive, `astimezone(pytz.UTC)`, then
`isoformat(timespec='seconds')` with `+00:00 → Z`. `none` models any
exception in the `try` block (→ 400 "Invalid start_time"). -/
def normStart (startV : JVal) (z : String) : Option String := do
  let s ← asStr startV
  let repl := pyReplace s.data "Z".data "+00:00".data
  let (dt, off) ← fromisoChars repl
  let offVal : Int ←
    match off with
    | some o => some o
    | none => tzOffsetMin z
  let utc ← shiftMinutes dt (-offVal)
  pure (String.mk (pyReplace (fmtUTC utc) "+00:00".data "Z".data))

/-- app.py 136–160: presence of the four required fields (in list
order), `int(duration)` (failure → 500 via the outer handler),
timezone membership, then start-time parsing. -/
def endpointValidate (data : RawData) : Sum Response NormReq :=
  match data.topic with
  | none => .inl { status := 400, success := some false, error := some "Missing: topic" }
  | some topicV =>
  match data.start_time with
  | none => .inl { status := 400, success := some false, error := some "Missing: start_time" }
  | some startV =>
  match data.duration with
  | none => .inl { status := 400, success := some false, error := some "Missing: duration" }
  | some durV =>
  match data.timezone with
  | none => .inl { status := 400, success := some false, error := some "Missing: timezone" }
  | some tzV =>
  match pyInt durV with
  | none => .inl { status := 500, success := some false, error := some pyIntErrMsg }
  | some dur =>
  match tzV with
  | JVal.jStr z =>
    if z ∈ all_timezones then
      match normStart startV z with
      | some iso =>
        .inr { topic := topicV, duration := dur, timezone := z, iso_start := iso,
               join_before_host := data.join_before_host.getD (JVal.jBool true),
               mute_upon_entry := data.mute_upon_entry.getD (JVal.jBool true),
               waiting_room := data.waiting_room.getD (JVal.jBool false) }
      | none =>
        .inl { status := 400, success := some false, error := some "Invalid start_time" }
    else
      .inl { status := 400, success := some false,
             error := some ("Invalid timezone: " ++ z) }
  | _ =>
    .inl { status := 400, success := some false, error := some "Invalid timezone" }

/-- app.py 162–172: load the credential (missing → 401 with setup URL)
and refresh when expired; a refresh failure propagates to the outer
handler (500). The refresh network call happens only after
`token["refresh_token"]` has been read successfully. -/
def endpointAuth (store : Option TokenRec) (now : Int) (rO : RefreshOutcome) :
    Except Response TokenRec × List Eff :=
  match load_token store now with
  | none =>
    (.error { status := 401, success := some false,
              error := some "zoom_token.json not found",
              setup_url := some "http://localhost:5000/oauth/login" },
     [Eff.load])
  | some tok =>
    if token_expired tok now then
      let effs := [Eff.load] ++ (if tok.refresh_token.isSome then [Eff.refreshCall] else [])
      match refresh_access_token tok now rO with
      | .error e => (.error { status := 500, success := some false, error := some e }, effs)
      | .ok tok2 => (.ok tok2, effs)
    else (.ok tok, [Eff.load])

/-- app.py 174–220: build the payload, post it, and interpret the
provider's response (429 / non-201 / 201). Reading
`token['access_token']` for the header precedes the post. -/
def callProvider (n : NormReq) (tok : TokenRec) (pO : ProviderResp) :
    Response × List Eff :=
  match tok.access_token with
  | none =>
    ({ status := 500, success := some false, error := some "KeyError: access_token" }, [])
  | some _ =>
    let payload : Payload :=
      { topic := n.topic, mtype := 2, start_time := n.iso_start,
        duration := n.duration, timezone := n.timezone,
        join_before_host := n.join_before_host,
        mute_upon_entry := n.mute_upon_entry,
        waiting_room := n.waiting_room }
    let effs := [Eff.providerCall payload]
    if pO.status = 429 then
      match pO.retryAfter with
      | none =>
        ({ status := 429, error := some "Rate limited", retry_after := some 60 }, effs)
      | some s =>
        match strToInt s.data with
        | some rn =>
          ({ status := 429, error := some "Rate limited", retry_after := some rn }, effs)
        | none =>
          ({ status := 500, success := some false, error := some pyIntErrMsg }, effs)
    else if pO.status ≠ 201 then
      ({ status := pO.status, success := some false, error := some pO.errBody }, effs)
    else
      match pO.meeting with
      | none =>
        ({ status := 500, success := some false, error := some "json decode error" }, effs)
      | some m =>
        ({ status := 201, success := some true, meeting := some m }, effs)

/-- The whole `/api/schedule/` handler (app.py 130–223), as a function
of the request body, the credential store, the clock, and the outcomes
of the two possible network exchanges. Returns the HTTP response and
the ordered effect trace. -/
def schedule_meeting_endpoint (data : Option RawData) (store : Option TokenRec)
    (now : Int) (rO : RefreshOutcome) (pO : ProviderResp) :
    Response × List Eff :=
  match data with
  | none => ({ status := 400, success := some false, error := some "JSON body required" }, [])
  | some d =>
    match endpointValidate d with
    | .inl resp => (resp, [])
    | .inr n =>
      match endpointAuth store now rO with
      | (.error resp, effs) => (resp, effs)
      | (.ok tok, effs) =>
        let pr := callProvider n tok pO
        (pr.1, effs ++ pr.2)

/-! ### Agent tool `schedule_meeting` (root_agent/ZoomAPI.py) -/

/-- The tool's keyword arguments per its signature; `duration` is
`Option` because the code guards `duration is None`. -/
structure ToolArgs where
  topic : String
  start_time : String
  duration : Option Int
  timezone : String
  join_before_host : Bool := true
  mute_upon_entry : Bool := true
  waiting_room : Bool := false
deriving DecidableEq, Repr

/-- The dict the tool returns to the agent runtime. -/
structure ToolResult where
  content : String
  is_error : Bool
  hasArtifact : Bool := false
deriving DecidableEq, Repr

/-- ZoomAPI.py 37–41: the `missing` list, in check order; a `None` or
non-positive `duration` lands in the same bucket as an absent field. -/
def toolMissing (a : ToolArgs) : List String :=
  (if a.topic = "" then ["topic"] else []) ++
  (if a.start_time = "" then ["start_time"] else []) ++
  (if (match a.duration with | none => true | some d => d ≤ 0) then ["duration"] else []) ++
  (if a.timezone = "" then ["timezone"] else [])

/-- ZoomAPI.py 44–50: the conversational re-prompt for missing fields. -/
def missingMsg (missing : List String) : String :=
  "Please provide the missing details: **" ++ String.intercalate ", " missing ++
  "**.\nExample: topic: Team Sync, start_time: 2025-11-16T14:30:00, etc."

/-- ZoomAPI.py 52–63: same start-time normalization as the endpoint
(`fromisoformat` after `Z` replacement, `pytz.timezone(...).localize`
when naive — note `pytz.timezone` runs *before* the membership check of
step 3 and raises inside this `try` on an unknown zone —
`astimezone(pytz.UTC)`, `isoformat` with `Z`). -/
def toolNormStart (s z : String) : Option String := normStart (JVal.jStr s) z

/-- ZoomAPI.py 36–83: the pre-network stages of the tool — missing-field
re-prompt, start-time conversion, timezone membership — ending either in
an early `ToolResult` or in the JSON body posted to the local API. -/
def toolValidate (a : ToolArgs) : Sum ToolResult RawData :=
  let missing := toolMissing a
  if missing ≠ [] then
    .inl { content := missingMsg missing, is_error := false }
  else
    match toolNormStart a.start_time a.timezone with
    | none =>
      .inl { content := "Invalid start_time format. Use: YYYY-MM-DDTHH:MM:SS",
             is_error := true }
    | some utc_start =>
      if a.timezone ∈ all_timezones then
        .inr { topic := some (JVal.jStr a.topic),
               start_time := some (JVal.jStr utc_start),
               duration := some (JVal.jInt (a.duration.getD 0)),
               timezone := some (JVal.jStr a.timezone),
               join_before_host := some (JVal.jBool a.join_before_host),
               mute_upon_entry := some (JVal.jBool a.mute_upon_entry),
               waiting_room := some (JVal.jBool a.waiting_room) }
      else
        .inl { content := "Invalid timezone: " ++ a.timezone ++
                 ". Use IANA name like Asia/Kolkata, America/New_York.",
               is_error := true }

/-- The JSON body of the local API's response as the tool reads it
(`result.get("success")`, `result.get("error")`, `result["meeting"]`). -/
structure ApiBody where
  success : Option Bool := none
  error : Option String := none
  meeting : Option Meeting := none
deriving DecidableEq, Repr

/-- Outcome of the tool's `requests.post` to the local API: a raised
exception (connection error, timeout, …) or a response with a status
and an optionally JSON-decodable body. -/
inductive ToolHttp where
  | exc (msg : String)
  | resp (status : Nat) (body : Option ApiBody)
deriving DecidableEq, Repr

def monthName : Nat → String
  | 1 => "January" | 2 => "February" | 3 => "March" | 4 => "April"
  | 5 => "May" | 6 => "June" | 7 => "July" | 8 => "August"
  | 9 => "September" | 10 => "October" | 11 => "November" | 12 => "December"
  | _ => ""

/-- `strftime("%B %d, %Y at %I:%M %p")`. -/
def strftimePretty (d : DT) : String :=
  let h12 := if d.hour % 12 = 0 then 12 else d.hour % 12
  monthName d.month ++ " " ++ String.mk (pad2 d.day) ++ ", " ++
  String.mk (pad4 d.year) ++ " at " ++ String.mk (pad2 h12) ++ ":" ++
  String.mk (pad2 d.minute) ++ " " ++ (if d.hour < 12 then "AM" else "PM")

/-- ZoomAPI.py 100–102: reparse the meeting's start time and render it
in the caller's zone. A naive start time is interpreted at the system
zone, abstracted here as UTC (no claim exercises that case); `none`
models any exception (caught by the generic handler). -/
def prettyLocal (startStr tzName : String) : Option String := do
  let (dt, off) ← fromisoChars (pyReplace startStr.data "Z".data "+00:00".data)
  let tzo ← tzOffsetMin tzName
  let loc ← shiftMinutes dt (tzo - off.getD 0)
  pure (strftimePretty loc)

/-- ZoomAPI.py 104–113: the success message. -/
def toolSuccessContent (m : Meeting) (pretty tzName : String) (duration : Int) : String :=
  "**Meeting Scheduled Successfully!**\n\n**Topic:** " ++ m.topic ++
  "\n**When:** " ++ pretty ++ " (" ++ tzName ++ ")\n**Duration:** " ++
  toString duration ++ " minutes\n**Join Link:** " ++ m.join_url ++
  "\n**Meeting ID:** " ++ toString m.id ++ "\n**Passcode:** " ++ m.password ++
  "\n\n_Host start link (private): " ++ m.start_url ++ "_"

/-- ZoomAPI.py 86–130: interpret the local API's response.
`raise_for_status` turns any status ≥ 400 into the `HTTPError` branch;
an undecodable body, a missing `meeting` key, or a failure while
pretty-printing lands in the generic `except` branch; a body whose
`success` is not truthy yields the "Zoom API error" branch. -/
def toolHandleResponse (a : ToolArgs) (h : ToolHttp) : ToolResult :=
  match h with
  | .exc msg => { content := "Unexpected error: " ++ msg, is_error := true }
  | .resp status body =>
    if status ≥ 400 then
      { content := "API call failed (HTTP " ++ toString status ++ ")",
        is_error := true }
    else
      match body with
      | none => { content := "Unexpected error: response body is not JSON",
                  is_error := true }
      | some b =>
        if b.success ≠ some true then
          { content := "Zoom API error: " ++ b.error.getD "Unknown",
            is_error := true }
        else
          match b.meeting with
          | none => { content := "Unexpected error: KeyError: meeting",
                      is_error := true }
          | some m =>
            match prettyLocal m.start_time a.timezone with
            | none => { content := "Unexpected error: start_time", is_error := true }
            | some pretty =>
              { content := toolSuccessContent m pretty a.timezone
                  (match a.duration with | some d => d | none => 0),
                is_error := false, hasArtifact := true }

/-- The whole tool as a function of its arguments and the HTTP outcome. -/
def schedule_meeting_tool (a : ToolArgs) (h : ToolHttp) : ToolResult :=
  match toolValidate a with
  | .inl r => r
  | .inr _ => toolHandleResponse a h

/-- Lift the Flask endpoint's response to what the tool's HTTP client
sees (the Flask handler always serialises a JSON body). -/
def respToBody (r : Response) : ApiBody :=
  { success := r.success, error := r.error, meeting := r.meeting }

/-- The agent→tool→endpoint pipeline: the tool's pre-network stages,
then (only if they pass) the local endpoint, whose effect trace is the
pipeline's. An early return performs no HTTP call at all, hence no
credential load, refresh, or provider call. -/
def agentPipeline (a : ToolArgs) (store : Option TokenRec) (now : Int)
    (rO : RefreshOutcome) (pO : ProviderResp) : ToolResult × List Eff :=
  match toolValidate a with
  | .inl r => (r, [])
  | .inr body =>
    let pr := schedule_meeting_endpoint (some body) store now rO pO
    (toolHandleResponse a (.resp pr.1.status (some (respToBody pr.1))), pr.2)

/-! ### `convert_to_iso` (root_agent/agent.py 6–42) -/

/-- `convert_to_iso`. `dateutil.tz.gettz` recognises the modelled IANA
fragment; `dateutil.parser.parse(datetime_string)` is an external
library call, supplied as the oracle `parsedOracle` (`none` models a
`ParserError`). The code checks the zone, parses, *relabels* the naive
result with `replace(tzinfo=tz)` — no wall-clock conversion — and
renders `strftime("%Y-%m-%dT%H:%M:%S")`, which ignores the tzinfo, so
the output is exactly the parsed naive fields with no offset suffix. -/
def convert_to_iso (parsedOracle : Option DT) (datetime_string timezone_iana : String) :
    String :=
  if timezone_iana ∈ all_timezones then
    match parsedOracle with
    | some d => String.mk (fmtNaive d)
    | none =>
      "Error: Could not parse '" ++ datetime_string ++ "' using timezone '" ++
      timezone_iana ++ "'. Please specify a clearer date/time."
  else
    "Error: The timezone '" ++ timezone_iana ++ "' is not valid."

/-! ### Supporting lemmas -/

theorem pyReplaceF_nil (fuel : Nat) (pat rep : List Char) :
    pyReplaceF fuel [] pat rep = [] := by
  cases fuel <;> rfl

theorem pyReplaceF_stable (n : Nat) :
    ∀ (s : List Char) (fuel fuel' : Nat) (pat rep : List Char),
      s.length ≤ n → s.length ≤ fuel → s.length ≤ fuel' → pat ≠ [] →
      pyReplaceF fuel s pat rep = pyReplaceF fuel' s pat rep := by
  induction n with
  | zero =>
    intro s fuel fuel' pat rep h1 _ _ _
    have hs : s = [] := List.eq_nil_of_length_eq_zero (Nat.le_zero.mp h1)
    subst hs
    simp [pyReplaceF_nil]
  | succ n ih =>
    intro s fuel fuel' pat rep h1 h2 h3 hp
    cases s with
    | nil => simp [pyReplaceF_nil]
    | cons c cs =>
      have hlp : 1 ≤ pat.length := by
        cases pat with
        | nil => exact absurd rfl hp
        | cons a as => simp
      simp only [List.length_cons] at h1 h2 h3
      cases fuel with
      | zero => omega
      | succ f =>
        cases fuel' with
        | zero => omega
        | succ f' =>
          simp only [pyReplaceF]
          by_cases hcond : (lstartsWith (c :: cs) pat = true) ∧ pat ≠ []
          · rw [if_pos hcond, if_pos hcond]
            congr 1
            apply ih _ f f' pat rep ?_ ?_ ?_ hp <;>
              simp only [List.length_drop, List.length_cons] <;> omega
          · rw [if_neg hcond, if_neg hcond]
            congr 1
            exact ih cs f f' pat rep (by omega) (by omega) (by omega) hp

theorem lstartsWith_cons_ne {x c : Char} (pat : List Char) (hx : x ≠ c)
    (cs : List Char) : lstartsWith (x :: cs) (c :: pat) = false := by
  simp [lstartsWith, hx]

theorem pyReplaceF_append_head_notmem (c : Char) (pat rep : List Char) :
    ∀ (xs rest : List Char) (fuel : Nat), c ∉ xs →
      (xs ++ c :: rest).length ≤ fuel →
      pyReplaceF fuel (xs ++ c :: rest) (c :: pat) rep
        = xs ++ pyReplaceF (fuel - xs.length) (c :: rest) (c :: pat) rep := by
  intro xs
  induction xs with
  | nil => intro rest fuel _ _; simp
  | cons x xs ih =>
    intro rest fuel hc hlen
    simp only [List.cons_append, List.length_cons, List.length_append] at hlen ⊢
    cases fuel with
    | zero => omega
    | succ f =>
      have hx : x ≠ c := by
        intro he
        exact hc (by simp [he])
      have hstart : lstartsWith (x :: (xs ++ c :: rest)) (c :: pat) = false :=
        lstartsWith_cons_ne pat hx _
      simp only [pyReplaceF, hstart, false_and, if_false, Bool.false_eq_true]
      have hc2 : c ∉ xs := fun hm => hc (List.mem_cons_of_mem _ hm)
      rw [ih rest f hc2
        (by simp only [List.length_append, List.length_cons]; omega)]
      have harith : f + 1 - (xs.length + 1) = f - xs.length := by omega
      rw [harith]

theorem daysInMonth_le (y m : Nat) : daysInMonth y m ≤ 31 := by
  unfold daysInMonth
  split
  · split <;> omega
  · split <;> omega

theorem validDT_bounds (u : DT) (h : validDT u = true) :
    1 ≤ u.year ∧ u.year ≤ 9999 ∧ 1 ≤ u.month ∧ u.month ≤ 12 ∧
    1 ≤ u.day ∧ u.day ≤ 31 ∧ u.hour < 24 ∧ u.minute < 60 ∧ u.second < 60 := by
  simp only [validDT, Bool.and_eq_true, decide_eq_true_eq] at h
  have := daysInMonth_le u.year u.month
  omega

theorem fmtNaive_length (u : DT) : (fmtNaive u).length = 19 := by
  simp [fmtNaive, pad4, pad2]

theorem natDigit_le9_ne_plus : ∀ k ≤ 9, natDigit k ≠ '+' := by decide

theorem natDigit_le9_ne_Z : ∀ k ≤ 9, natDigit k ≠ 'Z' := by decide

theorem digit_args_le9 (u : DT) (h : validDT u = true) :
    u.year / 1000 ≤ 9 ∧ u.year / 100 % 10 ≤ 9 ∧ u.year / 10 % 10 ≤ 9 ∧
    u.year % 10 ≤ 9 ∧ u.month / 10 ≤ 9 ∧ u.month % 10 ≤ 9 ∧
    u.day / 10 ≤ 9 ∧ u.day % 10 ≤ 9 ∧ u.hour / 10 ≤ 9 ∧ u.hour % 10 ≤ 9 ∧
    u.minute / 10 ≤ 9 ∧ u.minute % 10 ≤ 9 ∧ u.second / 10 ≤ 9 ∧
    u.second % 10 ≤ 9 := by
  have hb := validDT_bounds u h
  omega

theorem plus_not_mem_fmtNaive (u : DT) (h : validDT u = true) :
    '+' ∉ fmtNaive u := by
  obtain ⟨b1, b2, b3, b4, b5, b6, b7, b8, b9, b10, b11, b12, b13, b14⟩ :=
    digit_args_le9 u h
  intro hm
  simp only [fmtNaive, pad4, pad2, List.mem_append, List.mem_cons,
    List.not_mem_nil, or_false] at hm
  rcases hm with (h' | h' | h' | h') | h' | (h' | h') | h' | (h' | h') |
    h' | (h' | h') | h' | (h' | h') | h' | (h' | h') <;>
    first
      | exact absurd h' (by decide)
      | exact natDigit_le9_ne_plus _ (by omega) h'.symm

theorem Z_not_mem_fmtNaive (u : DT) (h : validDT u = true) :
    'Z' ∉ fmtNaive u := by
  obtain ⟨b1, b2, b3, b4, b5, b6, b7, b8, b9, b10, b11, b12, b13, b14⟩ :=
    digit_args_le9 u h
  intro hm
  simp only [fmtNaive, pad4, pad2, List.mem_append, List.mem_cons,
    List.not_mem_nil, or_false] at hm
  rcases hm with (h' | h' | h' | h') | h' | (h' | h') | h' | (h' | h') |
    h' | (h' | h') | h' | (h' | h') | h' | (h' | h') <;>
    first
      | exact absurd h' (by decide)
      | exact natDigit_le9_ne_Z _ (by omega) h'.symm

theorem pyReplace_fmtUTC (u : DT) (h : validDT u = true) :
    pyReplace (fmtUTC u) "+00:00".data "Z".data = fmtNaive u ++ ['Z'] := by
  have hplus : "+00:00".data = '+' :: "00:00".data := rfl
  unfold pyReplace fmtUTC
  rw [hplus]
  rw [pyReplaceF_append_head_notmem '+' "00:00".data "Z".data (fmtNaive u)
    "00:00".data _ (plus_not_mem_fmtNaive u h) (le_refl _)]
  have hk : (fmtNaive u ++ '+' :: "00:00".data).length - (fmtNaive u).length = 6 := by
    simp [List.length_append, fmtNaive_length]
  rw [hk]
  congr 1

theorem pyReplace_fmtZ (u : DT) (h : validDT u = true) :
    pyReplace (fmtNaive u ++ ['Z']) "Z".data "+00:00".data = fmtUTC u := by
  have hz : "Z".data = 'Z' :: ([] : List Char) := rfl
  unfold pyReplace fmtUTC
  rw [hz]
  rw [pyReplaceF_append_head_notmem 'Z' [] "+00:00".data (fmtNaive u)
    [] _ (Z_not_mem_fmtNaive u h) (le_refl _)]
  have hk : (fmtNaive u ++ ['Z']).length - (fmtNaive u).length = 1 := by
    simp [List.length_append]
  rw [hk]
  congr 1

theorem shiftMinutes_valid (d r : DT) (delta : Int)
    (h : shiftMinutes d delta = some r) : validDT r = true := by
  simp only [shiftMinutes] at h
  split at h
  · exact absurd h (by simp)
  · split at h
    · rename_i hv
      cases h
      exact hv
    · exact absurd h (by simp)

theorem shiftMinutes_zero (u : DT) (h : validDT u = true) :
    shiftMinutes u 0 = some u := by
  obtain ⟨hy1, hy2, hmo1, hmo2, hd1, hd2, hh, hmi, hs⟩ := validDT_bounds u h
  have hraw : rawShift u 0 = u := by
    unfold rawShift
    rw [if_neg (by omega), if_pos (by omega)]
    have ht : (((u.hour * 60 + u.minute : Nat) : Int) + 0).toNat
        = u.hour * 60 + u.minute := by omega
    rw [ht]
    cases u
    simp only [DT.mk.injEq] at *
    refine ⟨?_, ?_, ?_, ?_, ?_, ?_⟩ <;> first | trivial | omega
  simp only [shiftMinutes]
  rw [if_neg (by omega), hraw, if_pos h]

theorem fromisoChars_fmt (u : DT) (h : validDT u = true) (rest : List Char)
    (off : Option Int) (hrest : parseOffsetTail rest = some off) :
    fromisoChars (fmtNaive u ++ rest) = some (u, off) := by
  obtain ⟨hy1, hy2, hmo1, hmo2, hd1, hd2, hh, hmi, hs⟩ := validDT_bounds u h
  obtain ⟨y, mo, da, hr, mi, s⟩ := u
  simp only at hy1 hy2 hmo1 hmo2 hd1 hd2 hh hmi hs
  simp only [fmtNaive, pad4, pad2, List.cons_append, List.append_assoc,
    List.nil_append]
  simp only [fromisoChars]
  rw [parse4_pad4 y (by omega), parse2_pad2 mo (by omega),
    parse2_pad2 da (by omega), parse2_pad2 hr (by omega),
    parse2_pad2 mi (by omega), parse2_pad2 s (by omega)]
  simp only [Option.bind_eq_bind, Option.some_bind, if_pos h, hrest]
  rfl

theorem normStart_success_shape (startV : JVal) (z : String) (iso : String)
    (h : normStart startV z = some iso) :
    ∃ utc : DT, validDT utc = true ∧
      iso = String.mk (pyReplace (fmtUTC utc) ['+', '0', '0', ':', '0', '0'] ['Z']) := by
  simp only [normStart, Option.bind_eq_bind, Option.bind_eq_some, pure,
    Option.some.injEq] at h
  obtain ⟨s, hs, h⟩ := h
  obtain ⟨⟨dt, off⟩, hdt, h⟩ := h
  dsimp only at h
  cases off with
  | some o =>
    simp only [Option.some_bind, Option.bind_eq_some, Option.some.injEq] at h
    obtain ⟨utc, hutc, h⟩ := h
    exact ⟨utc, shiftMinutes_valid _ _ _ hutc, h.symm⟩
  | none =>
    simp only [Option.bind_eq_some, Option.some.injEq] at h
    obtain ⟨o, ho, utc, hutc, h⟩ := h
    exact ⟨utc, shiftMinutes_valid _ _ _ hutc, h.symm⟩

theorem normStart_idem (startV : JVal) (z : String) (iso : String)
    (h : normStart startV z = some iso) :
    normStart (JVal.jStr iso) z = some iso := by
  obtain ⟨utc, hv, hiso⟩ := normStart_success_shape startV z iso h
  subst hiso
  simp only [normStart, asStr, Option.bind_eq_bind, Option.some_bind]
  rw [pyReplace_fmtUTC utc hv, pyReplace_fmtZ utc hv]
  rw [show fmtUTC utc = fmtNaive utc ++ ['+', '0', '0', ':', '0', '0'] from rfl]
  rw [fromisoChars_fmt utc hv ['+', '0', '0', ':', '0', '0'] (some 0) (by decide)]
  simp only [Option.some_bind, neg_zero]
  rw [shiftMinutes_zero utc hv]
  simp only [Option.some_bind, pure, Option.some.injEq]
  rw [pyReplace_fmtUTC utc hv]

/-- Feed a normalized request back to the endpoint as a raw JSON body
(the UTC-normalized start with its original timezone, the coerced
duration, the topic, and the resolved option flags). -/
def renorm (n : NormReq) : RawData :=
  { topic := some n.topic, start_time := some (JVal.jStr n.iso_start),
    duration := some (JVal.jInt n.duration),
    timezone := some (JVal.jStr n.timezone),
    join_before_host := some n.join_before_host,
    mute_upon_entry := some n.mute_upon_entry,
    waiting_room := some n.waiting_room }

theorem endpointValidate_inr (d : RawData) (n : NormReq)
    (h : endpointValidate d = Sum.inr n) :
    n.timezone ∈ all_timezones ∧
    ∃ sv, d.start_time = some sv ∧ normStart sv n.timezone = some n.iso_start := by
  unfold endpointValidate at h
  split at h <;> try exact absurd h (by simp)
  split at h <;> try exact absurd h (by simp)
  split at h <;> try exact absurd h (by simp)
  split at h <;> try exact absurd h (by simp)
  split at h <;> try exact absurd h (by simp)
  split at h <;> try exact absurd h (by simp)
  · split at h
    · split at h
      · rw [Sum.inr.injEq] at h
        subst h
        refine ⟨by assumption, _, by assumption, by assumption⟩
      · exact absurd h (by simp)
    · exact absurd h (by simp)

/-- C9 — For every raw input on which validation succeeds, `validate`
is idempotent: feeding the normalized output (UTC-normalized start time
with its original timezone, coerced duration, topic) back through
validation succeeds and yields the same normalized result. -/
theorem validate_idempotent (d : RawData) (n : NormReq)
    (h : endpointValidate d = Sum.inr n) :
    endpointValidate (renorm n) = Sum.inr n := by
  obtain ⟨htz, sv, hsv, hns⟩ := endpointValidate_inr d n h
  have hidem := normStart_idem sv n.timezone n.iso_start hns
  unfold endpointValidate renorm
  dsimp only [pyInt]
  rw [if_pos htz, hidem]
  rfl

/-- C9 witness: the idempotence theorem applied to the concrete
scenario-1 request. -/
theorem validate_idempotent_witness :
    endpointValidate
      (renorm { topic := JVal.jStr "Sync", duration := 30,
                timezone := "Asia/Kolkata",
                iso_start := "2025-11-15T04:30:00Z",
                join_before_host := JVal.jBool true,
                mute_upon_entry := JVal.jBool true,
                waiting_room := JVal.jBool false })
      = Sum.inr { topic := JVal.jStr "Sync", duration := 30,
                  timezone := "Asia/Kolkata",
                  iso_start := "2025-11-15T04:30:00Z",
                  join_before_host := JVal.jBool true,
                  mute_upon_entry := JVal.jBool true,
                  waiting_room := JVal.jBool false } :=
  validate_idempotent
    { topic := some (JVal.jStr "Sync"),
      start_time := some (JVal.jStr "2025-11-15T10:00:00"),
      duration := some (JVal.jInt 30),
      timezone := some (JVal.jStr "Asia/Kolkata") }
    _ (by decide)

instance {e a : Type} [DecidableEq e] [DecidableEq a] :
    DecidableEq (Except e a) := fun x y =>
  match x, y with
  | .ok u, .ok v =>
    if h : u = v then isTrue (by rw [h])
    else isFalse (by intro hc; cases hc; exact h rfl)
  | .error u, .error v =>
    if h : u = v then isTrue (by rw [h])
    else isFalse (by intro hc; cases hc; exact h rfl)
  | .ok _, .error _ => isFalse (by intro hc; cases hc)
  | .error _, .ok _ => isFalse (by intro hc; cases hc)

/-! ### C1 / C4 — token lifecycle -/

/-- An expired persisted record (used by the C1 counterexample). -/
def c1tokExpired : TokenRec := { refresh_token := some "r", expires_at := some 1000 }

/-- A refresh response declaring a zero lifetime. -/
def c1shortLife : RefreshOutcome :=
  RefreshOutcome.success { access_token := some "b", expires_in := some 0 }

/-- A far-future record (used by the C1 witness). -/
def c1tokFresh : TokenRec := { refresh_token := some "r", expires_at := some 10000 }

/-- C1 counterexample — the pipeline proceeds on an expired record, the
refresh succeeds with a provider-declared lifetime of 0 s, and
`ensure_valid` returns a record whose `expires_at` equals the instant of
return, i.e. less than 120 seconds in the future. -/
theorem ensure_valid_margin_cex :
    token_expired c1tokExpired 1000 = true ∧
    ensure_valid c1tokExpired 1000 c1shortLife
      = Except.ok { access_token := some "b", refresh_token := none,
                    expires_at := some 1000, expires_in := some 0 } ∧
    (1000 : Int) < 1000 + 120 := by
  decide

/-- C1 (amended) — a record is treated as expired exactly when
`now > expires_at - 120`; a non-expired record is returned unchanged
with `expires_at ≥ now + 120`; an expired record triggers a refresh
whose failure fails the call (an `ok` result implies a success
response), and a successful refresh returns
`expires_at = now + declared lifetime` (default 3600) — at least
`now + 120` provided every success response declares a lifetime of at
least 120 seconds. -/
theorem ensure_valid_margin (t : TokenRec) (now : Int) (o : RefreshOutcome)
    (r : TokenRec)
    (hlife : ∀ j, o = RefreshOutcome.success j → 120 ≤ j.expires_in.getD 3600)
    (h : ensure_valid t now o = Except.ok r) :
    now + 120 ≤ r.expires_at.getD 0 ∧
    (token_expired t now = false → r = t) ∧
    (token_expired t now = true →
      ∃ j, o = RefreshOutcome.success j ∧
        r.expires_at = some (now + j.expires_in.getD 3600)) := by
  unfold ensure_valid at h
  cases hexp : token_expired t now with
  | false =>
    rw [hexp] at h
    simp only [Bool.false_eq_true, if_false, Except.ok.injEq] at h
    subst h
    refine ⟨?_, fun _ => rfl, fun hc => absurd hc (by simp)⟩
    simp only [token_expired, decide_eq_false_iff_not, not_lt] at hexp
    omega
  | true =>
    rw [hexp] at h
    simp only [if_true] at h
    unfold refresh_access_token at h
    cases htr : t.refresh_token with
    | none => rw [htr] at h; exact absurd h (by simp)
    | some rt =>
      rw [htr] at h
      cases o with
      | failure body => exact absurd h (by simp)
      | success j =>
        simp only [Except.ok.injEq] at h
        subst h
        have hl := hlife j rfl
        refine ⟨?_, by simp, fun _ => ⟨j, rfl, rfl⟩⟩
        simp only [Option.getD_some]
        omega

/-- C1 witness: a fresh record at `now = 0` passes through unchanged
and its expiry is at least 120 seconds away. -/
theorem ensure_valid_margin_witness :
    (0 : Int) + 120 ≤ c1tokFresh.expires_at.getD 0 ∧
    (token_expired c1tokFresh 0 = false → c1tokFresh = c1tokFresh) ∧
    (token_expired c1tokFresh 0 = true →
      ∃ j, RefreshOutcome.failure "boom" = RefreshOutcome.success j ∧
        c1tokFresh.expires_at = some (0 + j.expires_in.getD 3600)) :=
  ensure_valid_margin c1tokFresh 0 (RefreshOutcome.failure "boom") c1tokFresh
    (fun j hj => by cases hj) (by decide)

/-- The previous record of the C4 counterexample. -/
def c4old : TokenRec := { refresh_token := some "r", expires_at := some 2000 }

/-- A success response that omits the refresh token and declares a zero
lifetime. -/
def c4out : RefreshOutcome :=
  RefreshOutcome.success { access_token := some "b", expires_in := some 0 }

/-- The record the code then persists and returns. -/
def c4new : TokenRec :=
  { access_token := some "b", expires_at := some 2000, expires_in := some 0 }

/-- C4 counterexample — on a successful refresh whose response omits the
refresh token, the persisted/returned record carries *no* refresh token
(the old one is dropped), and with a zero declared lifetime the new
`expires_at` is not strictly greater than the previous one. -/
theorem refresh_token_drop_cex :
    token_expired c4old 2000 = true ∧
    refresh_access_token c4old 2000 c4out = Except.ok c4new ∧
    c4new.refresh_token = none ∧
    c4old.refresh_token = some "r" ∧
    ¬(c4old.expires_at.getD 0 < c4new.expires_at.getD 0) := by
  decide

/-- C4 (amended) — a successful refresh of an expired record sets
`expires_at := now + declared lifetime` (default 3600), which is
strictly greater than the previous `expires_at` whenever the declared
lifetime is at least 120 seconds, and the returned record's
`refresh_token` is exactly the response's: when the provider omits it
the record has none — the old refresh token is not preserved. -/
theorem refresh_updates (t : TokenRec) (now : Int) (j : RefreshJson)
    (r : TokenRec)
    (hexp : token_expired t now = true)
    (h : refresh_access_token t now (RefreshOutcome.success j) = Except.ok r) :
    r.expires_at = some (now + j.expires_in.getD 3600) ∧
    r.refresh_token = j.refresh_token ∧
    (120 ≤ j.expires_in.getD 3600 →
      t.expires_at.getD 0 < r.expires_at.getD 0) := by
  unfold refresh_access_token at h
  cases htr : t.refresh_token with
  | none => rw [htr] at h; exact absurd h (by simp)
  | some rt =>
    rw [htr] at h
    simp only [Except.ok.injEq] at h
    subst h
    refine ⟨rfl, rfl, fun hl => ?_⟩
    simp only [token_expired, decide_eq_true_eq] at hexp
    simp only [Option.getD_some]
    omega

/-- C4 witness: a concrete successful refresh at `now = 2000` with a
3600-second lifetime. -/
theorem refresh_updates_witness :
    ({ access_token := some "b2", refresh_token := none,
       expires_at := some (2000 + 3600), expires_in := some 3600 } : TokenRec).expires_at
      = some ((2000 : Int) + ({ access_token := some "b2", expires_in := some 3600 } : RefreshJson).expires_in.getD 3600) ∧
    ({ access_token := some "b2", refresh_token := none,
       expires_at := some (2000 + 3600), expires_in := some 3600 } : TokenRec).refresh_token
      = ({ access_token := some "b2", expires_in := some 3600 } : RefreshJson).refresh_token ∧
    (120 ≤ ({ access_token := some "b2", expires_in := some 3600 } : RefreshJson).expires_in.getD 3600 →
      c4old.expires_at.getD 0
        < ({ access_token := some "b2", refresh_token := none,
             expires_at := some (2000 + 3600), expires_in := some 3600 } : TokenRec).expires_at.getD 0) :=
  refresh_updates c4old 2000 { access_token := some "b2", expires_in := some 3600 }
    { access_token := some "b2", refresh_token := none,
      expires_at := some (2000 + 3600), expires_in := some 3600 }
    (by decide) (by decide)

/-! ### C2 — end-to-end scenario 1 -/

/-- Scenario-1 request body. -/
def c2Data : RawData :=
  { topic := some (JVal.jStr "Sync"),
    start_time := some (JVal.jStr "2025-11-15T10:00:00"),
    duration := some (JVal.jInt 30),
    timezone := some (JVal.jStr "Asia/Kolkata") }

/-- A valid, non-expired persisted token. -/
def c2Token : TokenRec :=
  { access_token := some "at0", refresh_token := some "rt0",
    expires_at := some 2000000000 }

/-- The provider's 201 meeting object. -/
def c2Meeting : Meeting :=
  { id := 123, topic := "Sync", join_url := "https://zoom.us/j/123",
    start_url := "https://zoom.us/s/123", password := "pw",
    start_time := "2025-11-15T04:30:00Z", duration := 30,
    timezone := "Asia/Kolkata", created_at := "2025-11-01T00:00:00Z" }

/-- The payload the endpoint must send for scenario 1. -/
def c2Payload : Payload :=
  { topic := JVal.jStr "Sync", mtype := 2,
    start_time := "2025-11-15T04:30:00Z", duration := 30,
    timezone := "Asia/Kolkata", join_before_host := JVal.jBool true,
    mute_upon_entry := JVal.jBool true, waiting_room := JVal.jBool false }

/-- C2 — for the scenario-1 input with a valid non-expired token, the
provider create-meeting call carries the UTC-normalized start
`2025-11-15T04:30:00Z` (naive local time localized in Asia/Kolkata,
converted to UTC, second precision, literal `Z`), duration 30, and on
HTTP 201 the caller receives a success envelope containing `join_url`. -/
theorem scenario1_end_to_end :
    token_expired c2Token 1700000000 = false ∧
    schedule_meeting_endpoint (some c2Data) (some c2Token) 1700000000
        (RefreshOutcome.failure "unused") { status := 201, meeting := some c2Meeting }
      = ({ status := 201, success := some true, meeting := some c2Meeting },
         [Eff.load, Eff.providerCall c2Payload]) ∧
    c2Payload.start_time = "2025-11-15T04:30:00Z" ∧
    c2Payload.duration = 30 ∧
    c2Meeting.join_url = "https://zoom.us/j/123" := by
  decide

/-! ### C3 — validator rule order -/

/-- All four fields present, unrecognised timezone, unparseable
start time, and a duration that does not coerce to an integer. -/
def c3Data : RawData :=
  { topic := some (JVal.jStr "T"),
    start_time := some (JVal.jStr "not-a-time"),
    duration := some (JVal.jStr "x"),
    timezone := some (JVal.jStr "Nope/Zone") }

/-- C3 counterexample — with an unrecognised timezone *and* an
unparseable start time, the endpoint can still answer with the
`int(duration)` coercion failure (a generic 500), not the
invalid-timezone error: duration coercion runs before the timezone
membership check, and duration positivity is never checked at the
endpoint. -/
theorem validator_order_cex :
    ("Nope/Zone" ∉ all_timezones) ∧
    normStart (JVal.jStr "not-a-time") "Nope/Zone" = none ∧
    endpointValidate c3Data
      = Sum.inl { status := 500, success := some false, error := some pyIntErrMsg } ∧
    endpointValidate c3Data
      ≠ Sum.inl { status := 400, success := some false,
                  error := some ("Invalid timezone: " ++ "Nope/Zone") } := by
  refine ⟨by decide, by decide, by decide, by decide⟩

/-- C3 (amended) — the endpoint validator short-circuits in the order:
presence of the four required fields, `int(duration)` coercion (whose
failure yields the generic 500 error; positivity is not checked), then
timezone membership, then start-time parsing. In particular, for every
input whose four fields are present and whose timezone is unrecognised,
the result is the invalid-timezone error whenever the duration coerces,
regardless of whether the start time parses. -/
theorem validator_order (d : RawData) (tv sv dv : JVal) (z : String)
    (h1 : d.topic = some tv) (h2 : d.start_time = some sv)
    (h3 : d.duration = some dv) (h4 : d.timezone = some (JVal.jStr z))
    (hz : z ∉ all_timezones) :
    endpointValidate d
      = (match pyInt dv with
        | none => Sum.inl { status := 500, success := some false,
                            error := some pyIntErrMsg }
        | some _ => Sum.inl { status := 400, success := some false,
                              error := some ("Invalid timezone: " ++ z) }) := by
  unfold endpointValidate
  rw [h1, h2, h3, h4]
  dsimp only
  cases pyInt dv with
  | none => rfl
  | some k =>
    dsimp only
    rw [if_neg hz]

/-- C3 witness: same unparseable start time and unrecognised timezone,
but a coercible duration — the invalid-timezone error wins. -/
theorem validator_order_witness :
    endpointValidate
      { topic := some (JVal.jStr "T"),
        start_time := some (JVal.jStr "not-a-time"),
        duration := some (JVal.jStr "5"),
        timezone := some (JVal.jStr "Nope/Zone") }
      = (match pyInt (JVal.jStr "5") with
        | none => Sum.inl { status := 500, success := some false,
                            error := some pyIntErrMsg }
        | some _ => Sum.inl { status := 400, success := some false,
                              error := some ("Invalid timezone: " ++ "Nope/Zone") }) :=
  validator_order _ (JVal.jStr "T") (JVal.jStr "not-a-time") (JVal.jStr "5")
    "Nope/Zone" rfl rfl rfl rfl (by decide)

/-! ### C6 — empty credential store -/

/-- The endpoint's 401 response when `zoom_token.json` is missing. -/
def authMissingResp : Response :=
  { status := 401, success := some false,
    error := some "zoom_token.json not found",
    setup_url := some "http://localhost:5000/oauth/login" }

/-- C6 — for every request that passes validation while the credential
store is empty, the endpoint answers 401 with the setup URL, and its
effect trace contains no provider create-meeting call (and no refresh
call): the only effect is the failed credential load. -/
theorem missing_credential (d : RawData) (n : NormReq) (now : Int)
    (rO : RefreshOutcome) (pO : ProviderResp)
    (h : endpointValidate d = Sum.inr n) :
    schedule_meeting_endpoint (some d) none now rO pO
      = (authMissingResp, [Eff.load]) ∧
    (∀ p, Eff.providerCall p ∉ (schedule_meeting_endpoint (some d) none now rO pO).2) := by
  have heq : schedule_meeting_endpoint (some d) none now rO pO
      = (authMissingResp, [Eff.load]) := by
    unfold schedule_meeting_endpoint
    dsimp only
    rw [h]
    rfl
  refine ⟨heq, fun p => ?_⟩
  rw [heq]
  simp

/-- The normalized form of the scenario-1 request. -/
def c2Norm : NormReq :=
  { topic := JVal.jStr "Sync", duration := 30, timezone := "Asia/Kolkata",
    iso_start := "2025-11-15T04:30:00Z",
    join_before_host := JVal.jBool true, mute_upon_entry := JVal.jBool true,
    waiting_room := JVal.jBool false }

/-- C6 witness: the scenario-1 request against an empty store. -/
theorem missing_credential_witness :
    schedule_meeting_endpoint (some c2Data) none 1700000000
        (RefreshOutcome.failure "unused") { status := 201 }
      = (authMissingResp, [Eff.load]) ∧
    (∀ p, Eff.providerCall p ∉
      (schedule_meeting_endpoint (some c2Data) none 1700000000
        (RefreshOutcome.failure "unused") { status := 201 }).2) :=
  missing_credential c2Data c2Norm 1700000000 (RefreshOutcome.failure "unused")
    { status := 201 } (by decide)

/-! ### C7 — rate limiting -/

/-- Is this effect a provider create-meeting call? -/
def isProviderCall : Eff → Bool
  | .providerCall _ => true
  | _ => false

/-- C7 — when the provider answers 429 to a validated request served
with a loaded, non-expired token, the endpoint returns the rate-limited
response whose `retry_after` is the integer value of the `Retry-After`
header (60 when the header is absent), and exactly one provider call is
made — the component performs no retry. -/
theorem rate_limited (d : RawData) (n : NormReq) (store : Option TokenRec)
    (tok : TokenRec) (a : String) (now : Int) (rO : RefreshOutcome)
    (pO : ProviderResp)
    (hv : endpointValidate d = Sum.inr n)
    (hl : load_token store now = some tok)
    (he : token_expired tok now = false)
    (ha : tok.access_token = some a)
    (hs : pO.status = 429) :
    ((schedule_meeting_endpoint (some d) store now rO pO).2.countP isProviderCall = 1) ∧
    (pO.retryAfter = none →
      (schedule_meeting_endpoint (some d) store now rO pO).1
        = { status := 429, error := some "Rate limited", retry_after := some 60 }) ∧
    (∀ s k, pO.retryAfter = some s → strToInt s.data = some k →
      (schedule_meeting_endpoint (some d) store now rO pO).1
        = { status := 429, error := some "Rate limited", retry_after := some k }) := by
  have hout : schedule_meeting_endpoint (some d) store now rO pO
      = ((callProvider n tok pO).1, [Eff.load] ++ (callProvider n tok pO).2) := by
    unfold schedule_meeting_endpoint endpointAuth
    dsimp only
    rw [hv]
    dsimp only
    rw [hl]
    dsimp only
    rw [he]
    simp only [Bool.false_eq_true, if_false]
  have htr : (callProvider n tok pO).2.countP isProviderCall = 1 := by
    unfold callProvider
    rw [ha]
    dsimp only
    split
    · split
      · simp [List.countP, List.countP.go, isProviderCall]
      · split <;> simp [List.countP, List.countP.go, isProviderCall]
    · split
      · simp [List.countP, List.countP.go, isProviderCall]
      · split <;> simp [List.countP, List.countP.go, isProviderCall]
  refine ⟨?_, ?_, ?_⟩
  · rw [hout]
    simpa [List.countP_append, isProviderCall] using htr
  · intro hra
    rw [hout]
    unfold callProvider
    rw [ha]
    dsimp only
    rw [if_pos hs, hra]
  · intro s k hra hk
    rw [hout]
    unfold callProvider
    rw [ha]
    dsimp only
    rw [if_pos hs, hra]
    dsimp only
    rw [hk]

/-- C7 witness: scenario-1 request, 429 response with `Retry-After: 45`. -/
theorem rate_limited_witness :
    ((schedule_meeting_endpoint (some c2Data) (some c2Token) 1700000000
        (RefreshOutcome.failure "unused")
        { status := 429, retryAfter := some "45" }).2.countP isProviderCall = 1) ∧
    (({ status := 429, retryAfter := some "45" } : ProviderResp).retryAfter = none →
      (schedule_meeting_endpoint (some c2Data) (some c2Token) 1700000000
        (RefreshOutcome.failure "unused")
        { status := 429, retryAfter := some "45" }).1
        = { status := 429, error := some "Rate limited", retry_after := some 60 }) ∧
    (∀ s k, ({ status := 429, retryAfter := some "45" } : ProviderResp).retryAfter = some s →
      strToInt s.data = some k →
      (schedule_meeting_endpoint (some c2Data) (some c2Token) 1700000000
        (RefreshOutcome.failure "unused")
        { status := 429, retryAfter := some "45" }).1
        = { status := 429, error := some "Rate limited", retry_after := some k }) :=
  rate_limited c2Data c2Norm (some c2Token) c2Token "at0" 1700000000
    (RefreshOutcome.failure "unused") { status := 429, retryAfter := some "45" }
    (by decide) (by decide) (by decide) (by decide) (by decide)

/-! ### C5 — non-positive duration short-circuits the pipeline -/

/-- C5 — for every tool request whose duration is 0 (or `None`, or
negative — anything that fails the positive-integer guard), the
agent pipeline returns the validation re-prompt naming `duration`
before any HTTP call: the effect trace is empty, so no credential
load, token refresh, or provider call happens. -/
theorem duration_nonpositive_early (a : ToolArgs) (store : Option TokenRec)
    (now : Int) (rO : RefreshOutcome) (pO : ProviderResp)
    (hd : a.duration.getD 0 ≤ 0) :
    agentPipeline a store now rO pO
      = ({ content := missingMsg (toolMissing a), is_error := false }, []) ∧
    "duration" ∈ toolMissing a := by
  have hdm : "duration" ∈ toolMissing a := by
    unfold toolMissing
    have hcond : (match a.duration with
        | none => true
        | some d => decide (d ≤ 0)) = true := by
      cases hdur : a.duration with
      | none => rfl
      | some k =>
        rw [hdur] at hd
        simp only [Option.getD_some] at hd
        simp [hd]
    rw [hcond]
    simp [List.mem_append]
  have hne : toolMissing a ≠ [] := by
    intro h0
    rw [h0] at hdm
    exact absurd hdm (List.not_mem_nil _)
  refine ⟨?_, hdm⟩
  unfold agentPipeline toolValidate
  dsimp only
  rw [if_pos hne]

/-- C5 witness: scenario-1 arguments with `duration = 0`. -/
theorem duration_nonpositive_early_witness :
    agentPipeline
        { topic := "Sync", start_time := "2025-11-15T10:00:00",
          duration := some 0, timezone := "Asia/Kolkata" }
        (some c2Token) 1700000000 (RefreshOutcome.failure "unused")
        { status := 201 }
      = ({ content := missingMsg (toolMissing
              { topic := "Sync", start_time := "2025-11-15T10:00:00",
                duration := some 0, timezone := "Asia/Kolkata" }),
           is_error := false }, []) ∧
    "duration" ∈ toolMissing
        { topic := "Sync", start_time := "2025-11-15T10:00:00",
          duration := some 0, timezone := "Asia/Kolkata" } :=
  duration_nonpositive_early
    { topic := "Sync", start_time := "2025-11-15T10:00:00",
      duration := some 0, timezone := "Asia/Kolkata" }
    (some c2Token) 1700000000 (RefreshOutcome.failure "unused")
    { status := 201 } (by decide)

/-! ### C10 — tool error-flag classification -/

/-- C10 — in the agent-facing tool, a missing required field or a
non-positive duration yields a conversational re-prompt with
`is_error = false`, whereas every other failure path — unparseable
start time, invalid timezone, HTTP error status from the local API, an
undecodable body, a non-success body, or an exception from the request
— yields `is_error = true`. -/
theorem tool_error_flag (a : ToolArgs) (h : ToolHttp) :
    (toolMissing a ≠ [] → (schedule_meeting_tool a h).is_error = false) ∧
    (toolMissing a = [] → toolNormStart a.start_time a.timezone = none →
      (schedule_meeting_tool a h).is_error = true) ∧
    (toolMissing a = [] → ∀ u, toolNormStart a.start_time a.timezone = some u →
      a.timezone ∉ all_timezones → (schedule_meeting_tool a h).is_error = true) ∧
    (∀ msg, h = ToolHttp.exc msg → toolMissing a = [] →
      ∀ u, toolNormStart a.start_time a.timezone = some u →
      a.timezone ∈ all_timezones → (schedule_meeting_tool a h).is_error = true) ∧
    (∀ st b, h = ToolHttp.resp st b → 400 ≤ st → toolMissing a = [] →
      ∀ u, toolNormStart a.start_time a.timezone = some u →
      a.timezone ∈ all_timezones → (schedule_meeting_tool a h).is_error = true) ∧
    (∀ st, h = ToolHttp.resp st none → st < 400 → toolMissing a = [] →
      ∀ u, toolNormStart a.start_time a.timezone = some u →
      a.timezone ∈ all_timezones → (schedule_meeting_tool a h).is_error = true) ∧
    (∀ st b, h = ToolHttp.resp st (some b) → st < 400 → b.success ≠ some true →
      toolMissing a = [] →
      ∀ u, toolNormStart a.start_time a.timezone = some u →
      a.timezone ∈ all_timezones → (schedule_meeting_tool a h).is_error = true) := by
  have hval0 : ∀ r, toolValidate a = Sum.inl r →
      schedule_meeting_tool a h = r := by
    intro r hr
    unfold schedule_meeting_tool
    rw [hr]
  have hvalr : ∀ body, toolValidate a = Sum.inr body →
      schedule_meeting_tool a h = toolHandleResponse a h := by
    intro body hb
    unfold schedule_meeting_tool
    rw [hb]
  refine ⟨?_, ?_, ?_, ?_, ?_, ?_, ?_⟩
  · intro hne
    have : toolValidate a
        = Sum.inl { content := missingMsg (toolMissing a), is_error := false } := by
      unfold toolValidate
      dsimp only
      rw [if_pos hne]
    rw [hval0 _ this]
  · intro hmz hns
    have : toolValidate a
        = Sum.inl { content := "Invalid start_time format. Use: YYYY-MM-DDTHH:MM:SS",
                    is_error := true } := by
      unfold toolValidate
      dsimp only
      rw [if_neg (by simp [hmz]), hns]
    rw [hval0 _ this]
  · intro hmz u hns htz
    have : toolValidate a
        = Sum.inl { content := "Invalid timezone: " ++ a.timezone ++
                      ". Use IANA name like Asia/Kolkata, America/New_York.",
                    is_error := true } := by
      unfold toolValidate
      dsimp only
      rw [if_neg (by simp [hmz]), hns]
      dsimp only
      rw [if_neg htz]
    rw [hval0 _ this]
  all_goals
    first
    | (intro msg hh hmz u hns htz
       have hsend : toolValidate a = Sum.inr
           { topic := some (JVal.jStr a.topic),
             start_time := some (JVal.jStr u),
             duration := some (JVal.jInt (a.duration.getD 0)),
             timezone := some (JVal.jStr a.timezone),
             join_before_host := some (JVal.jBool a.join_before_host),
             mute_upon_entry := some (JVal.jBool a.mute_upon_entry),
             waiting_room := some (JVal.jBool a.waiting_room) } := by
         unfold toolValidate
         dsimp only
         rw [if_neg (by simp [hmz]), hns]
         dsimp only
         rw [if_pos htz]
       rw [hvalr _ hsend]
       subst hh
       rfl)
    | skip
  · intro st b hh hst hmz u hns htz
    have hsend : toolValidate a = Sum.inr
        { topic := some (JVal.jStr a.topic),
          start_time := some (JVal.jStr u),
          duration := some (JVal.jInt (a.duration.getD 0)),
          timezone := some (JVal.jStr a.timezone),
          join_before_host := some (JVal.jBool a.join_before_host),
          mute_upon_entry := some (JVal.jBool a.mute_upon_entry),
          waiting_room := some (JVal.jBool a.waiting_room) } := by
      unfold toolValidate
      dsimp only
      rw [if_neg (by simp [hmz]), hns]
      dsimp only
      rw [if_pos htz]
    rw [hvalr _ hsend]
    subst hh
    unfold toolHandleResponse
    dsimp only
    rw [if_pos hst]
  · intro st hh hst hmz u hns htz
    have hsend : toolValidate a = Sum.inr
        { topic := some (JVal.jStr a.topic),
          start_time := some (JVal.jStr u),
          duration := some (JVal.jInt (a.duration.getD 0)),
          timezone := some (JVal.jStr a.timezone),
          join_before_host := some (JVal.jBool a.join_before_host),
          mute_upon_entry := some (JVal.jBool a.mute_upon_entry),
          waiting_room := some (JVal.jBool a.waiting_room) } := by
      unfold toolValidate
      dsimp only
      rw [if_neg (by simp [hmz]), hns]
      dsimp only
      rw [if_pos htz]
    rw [hvalr _ hsend]
    subst hh
    unfold toolHandleResponse
    dsimp only
    rw [if_neg (by omega)]
  · intro st b hh hst hsucc hmz u hns htz
    have hsend : toolValidate a = Sum.inr
        { topic := some (JVal.jStr a.topic),
          start_time := some (JVal.jStr u),
          duration := some (JVal.jInt (a.duration.getD 0)),
          timezone := some (JVal.jStr a.timezone),
          join_before_host := some (JVal.jBool a.join_before_host),
          mute_upon_entry := some (JVal.jBool a.mute_upon_entry),
          waiting_room := some (JVal.jBool a.waiting_room) } := by
      unfold toolValidate
      dsimp only
      rw [if_neg (by simp [hmz]), hns]
      dsimp only
      rw [if_pos htz]
    rw [hvalr _ hsend]
    subst hh
    unfold toolHandleResponse
    dsimp only
    rw [if_neg (by omega)]
    rw [if_pos hsucc]

/-- Arguments with a missing topic (re-prompt path). -/
def aMissingTopic : ToolArgs :=
  { topic := "", start_time := "2025-11-15T10:00:00", duration := some 5,
    timezone := "Asia/Kolkata" }

/-- Fully valid tool arguments. -/
def aOk : ToolArgs :=
  { topic := "Sync", start_time := "2025-11-15T10:00:00", duration := some 30,
    timezone := "Asia/Kolkata" }

/-- C10 witness: a missing topic re-prompts with `is_error = false`; a
raised request exception on valid arguments yields `is_error = true`. -/
theorem tool_error_flag_witness :
    (schedule_meeting_tool aMissingTopic (ToolHttp.resp 201 none)).is_error = false ∧
    (schedule_meeting_tool aOk (ToolHttp.exc "connection refused")).is_error = true :=
  ⟨(tool_error_flag aMissingTopic (ToolHttp.resp 201 none)).1 (by decide),
   (tool_error_flag aOk (ToolHttp.exc "connection refused")).2.2.2.1
      "connection refused" rfl (by decide) "2025-11-15T04:30:00Z" (by decide)
      (by decide)⟩

/-! ### C8 — natural-language time normalization -/

/-- C8 — `convert_to_iso` with a recognised timezone and a parse result
at hour 15 renders exactly the parsed naive wall-clock fields (a direct
relabeling, no conversion): the output is the 19-character
`YYYY-MM-DDTHH:MM:SS` string whose hour field reads `15`, containing
no `+` and no `Z` (no offset suffix); and it returns an error string
exactly on the two failure conditions — unrecognised timezone, or the
external parser failing on the free text. -/
theorem convert_to_iso_relabel (oracle : Option DT) (ds : String) (d : DT)
    (ho : oracle = some d) (hv : validDT d = true) (hh : d.hour = 15) :
    convert_to_iso oracle ds "America/New_York" = String.mk (fmtNaive d) ∧
    pad2 d.hour = ['1', '5'] ∧
    (fmtNaive d).length = 19 ∧
    '+' ∉ fmtNaive d ∧
    'Z' ∉ fmtNaive d ∧
    (∀ s z, z ∉ all_timezones →
      convert_to_iso oracle s z
        = "Error: The timezone '" ++ z ++ "' is not valid.") ∧
    (∀ s z, z ∈ all_timezones →
      convert_to_iso none s z
        = "Error: Could not parse '" ++ s ++ "' using timezone '" ++ z ++
          "'. Please specify a clearer date/time.") := by
  subst ho
  refine ⟨?_, ?_, fmtNaive_length d, plus_not_mem_fmtNaive d hv,
    Z_not_mem_fmtNaive d hv, ?_, ?_⟩
  · unfold convert_to_iso
    rw [if_pos (by decide : "America/New_York" ∈ all_timezones)]
  · rw [hh]
    decide
  · intro s z hz
    unfold convert_to_iso
    rw [if_neg hz]
  · intro s z hz
    unfold convert_to_iso
    rw [if_pos hz]

/-- The parse oracle's value for "tomorrow at 3 PM" on the fixed
reference date 2025-10-12: the next day at 15:00. -/
def c8Parsed : DT := ⟨2025, 10, 13, 15, 0, 0⟩

/-- C8 witness: the concrete call at the fixed reference date. -/
theorem convert_to_iso_relabel_witness :
    convert_to_iso (some c8Parsed) "tomorrow at 3 PM" "America/New_York"
      = String.mk (fmtNaive c8Parsed) ∧
    pad2 c8Parsed.hour = ['1', '5'] ∧
    (fmtNaive c8Parsed).length = 19 ∧
    '+' ∉ fmtNaive c8Parsed ∧
    'Z' ∉ fmtNaive c8Parsed ∧
    (∀ s z, z ∉ all_timezones →
      convert_to_iso (some c8Parsed) s z
        = "Error: The timezone '" ++ z ++ "' is not valid.") ∧
    (∀ s z, z ∈ all_timezones →
      convert_to_iso none s z
        = "Error: Could not parse '" ++ s ++ "' using timezone '" ++ z ++
          "'. Please specify a clearer date/time.") :=
  convert_to_iso_relabel (some c8Parsed) "tomorrow at 3 PM" c8Parsed
    rfl (by decide) rfl
